import Mathlib

/-!
Verification development for the docx Jinja linter service
(src/services/docx_linter.py together with src/models/schemas.py).

The linter pipeline DocxJinjaLinterService.lint_docx_file is embedded as a
total Lean function over an explicit input record.  Calls into external
libraries are modelled as oracle fields of that record:
the structured text produced by python-docx extraction (the extractor
itself returns the empty string on failure, it never raises), the outcome
of the jinja2 parse of the preprocessed text, and the outcome of the
docxtpl XML extraction together with the set of undeclared template
variables it reports.  Everything downstream of those oracle values --
the stack scan of _find_unmatched_tags, the error dictionaries, the
conversion to LintResult, the summary and completeness score, and the
catastrophic-failure result -- is translated directly from the Python
source.  Floating point scores are represented by integers because every
score the code can produce (100.0, max(0.0, 100.0 - 20*errors), 0.0) is
integral and exact.
-/

namespace DocxLint

/-! ### Character and string primitives (Python semantics) -/

/-- Python regular-expression whitespace class over ASCII text. -/
def pySpace (c : Char) : Bool :=
  c = ' ' || c = '\t' || c = '\n' || c = '\r' || c = '\x0b' || c = '\x0c'

/-- Python str.strip on a character list. -/
def stripChars (cs : List Char) : List Char :=
  ((cs.dropWhile pySpace).reverse.dropWhile pySpace).reverse

/-- Python str.strip. -/
def pyStrip (s : String) : String := String.mk (stripChars s.data)

/-- The character list of a string literal. -/
def chrs (s : String) : List Char := s.data

/-- Does the second list start with the first one? -/
def charsStartWith : List Char → List Char → Bool
  | [], _ => true
  | _ :: _, [] => false
  | a :: as, b :: bs => a = b && charsStartWith as bs

/-- Does the second list contain the first as a contiguous run?
Python substring containment, needle first. -/
def charsHave (needle : List Char) : List Char → Bool
  | [] => charsStartWith needle []
  | c :: cs => charsStartWith needle (c :: cs) || charsHave needle cs

/-- Python substring containment, haystack first. -/
def strHas (hay needle : String) : Bool := charsHave needle.data hay.data

/-- Lower-case one basic latin letter, as Python str.lower does on the
ASCII messages this code inspects. -/
def lowerChar (c : Char) : Char :=
  if c.toNat ≥ 65 && c.toNat ≤ 90 then Char.ofNat (c.toNat + 32) else c

/-- Python str.lower over the character list. -/
def pyLower (s : String) : String := String.mk (s.data.map lowerChar)

/-- Drop a literal pattern from the head of a list, if present. -/
def dropLit : List Char → List Char → Option (List Char)
  | [], cs => some cs
  | _ :: _, [] => none
  | a :: as, c :: cs => if a = c then dropLit as cs else none

/-- Python str.split on a newline separator: text.split with one
newline character.  The empty string yields one empty piece. -/
def splitNl : List Char → List (List Char)
  | [] => [[]]
  | c :: cs =>
    if c = '\n' then [] :: splitNl cs
    else
      match splitNl cs with
      | l :: ls => (c :: l) :: ls
      | [] => [[c]]

/-! ### The opening-tag regular expressions of _find_unmatched_tags

The source searches each line with six patterns.  Two have the shape
open-delimiter, any run of whitespace, keyword, at least one whitespace
character; four have the shape open-delimiter plus a dialect letter run,
at least one whitespace character, keyword, at least one whitespace
character.  Because each keyword starts with a letter, the greedy
whitespace runs admit no backtracking and the matchers below are exact. -/

/-- Match, at the head of the list, the pattern written in the source as
open-brace percent, optional whitespace, keyword, mandatory whitespace. -/
def openLooseAt (kw : List Char) (cs : List Char) : Bool :=
  match cs with
  | '\x7b' :: '%' :: rest =>
    (match dropLit kw (rest.dropWhile pySpace) with
     | some (d :: _) => pySpace d
     | _ => false)
  | _ => false

/-- Python re.search of the loose opening pattern anywhere in a line. -/
def openLooseIn (kw : List Char) : List Char → Bool
  | [] => false
  | c :: cs => openLooseAt kw (c :: cs) || openLooseIn kw cs

/-- Match, at the head of the list, a dialect opening pattern: the literal
lead-in, mandatory whitespace, keyword, mandatory whitespace. -/
def openDialectAt (lead kw : List Char) (cs : List Char) : Bool :=
  match dropLit lead cs with
  | some (c :: rest) =>
    pySpace c &&
      (match dropLit kw ((c :: rest).dropWhile pySpace) with
       | some (d :: _) => pySpace d
       | _ => false)
  | _ => false

/-- Python re.search of a dialect opening pattern anywhere in a line. -/
def openDialectIn (lead kw : List Char) : List Char → Bool
  | [] => false
  | c :: cs => openDialectAt lead kw (c :: cs) || openDialectIn lead kw cs

/-! ### The open-tag stack of _find_unmatched_tags -/

/-- One entry of the open-tag stack: tag type, one-based line number and
the stripped line content, exactly the triple the source pushes. -/
structure Frame where
  tag : String
  line_number : Nat
  content : String
deriving DecidableEq

/-- The frames pushed for one line: the six opening patterns are tried in
source order and each pattern that occurs anywhere in the line pushes one
frame carrying the stripped line. -/
def lineOpens (line : List Char) (ln : Nat) : List Frame :=
  let stripped := String.mk (stripChars line)
  (if openLooseIn (chrs "if") line then [⟨"if", ln, stripped⟩] else []) ++
  (if openLooseIn (chrs "for") line then [⟨"for", ln, stripped⟩] else []) ++
  (if openDialectIn (chrs "\x7b%p") (chrs "if") line then [⟨"if", ln, stripped⟩] else []) ++
  (if openDialectIn (chrs "\x7b%tr") (chrs "for") line then [⟨"for", ln, stripped⟩] else []) ++
  (if openDialectIn (chrs "\x7b%tc") (chrs "if") line then [⟨"if", ln, stripped⟩] else []) ++
  (if openDialectIn (chrs "\x7b%r") (chrs "if") line then [⟨"if", ln, stripped⟩] else [])

/-- Pop the top of the stack when its tag equals the given one; the source
pops only when the stack is non-empty and the top frame matches. -/
def popMatching (t : String) (stack : List Frame) : List Frame :=
  match stack.getLast? with
  | some f => if f.tag = t then stack.dropLast else stack
  | none => stack

/-- Process one line: push the frames of every opening pattern that
occurs, then handle at most one closing form, first the endif forms and
otherwise the endfor forms, by substring containment as in the source. -/
def stepLine (stack : List Frame) (line : List Char) (ln : Nat) : List Frame :=
  let stack2 := stack ++ lineOpens line ln
  if charsHave (chrs "\x7b% endif %\x7d") line || charsHave (chrs "\x7b%p endif %\x7d") line then
    popMatching "if" stack2
  else if charsHave (chrs "\x7b% endfor %\x7d") line || charsHave (chrs "\x7b%tr endfor %\x7d") line then
    popMatching "for" stack2
  else stack2

/-- Walk all lines with one-based line numbers, starting from the empty
stack. -/
def scanStackAux (stack : List Frame) (ln : Nat) : List (List Char) → List Frame
  | [] => stack
  | l :: ls => scanStackAux (stepLine stack l ln) (ln + 1) ls

/-- The open-tag stack left over after scanning the whole document. -/
def scanStack (lines : List (List Char)) : List Frame := scanStackAux [] 1 lines

/-! ### The data model of src/models/schemas.py -/

/-- LintErrorType of schemas.py. -/
inductive LintErrorType
  | syntax_error
  | unclosed_tag
  | mismatched_tag
  | nested_error
  | undefined_variable
  | invalid_expression
  | document_error
deriving DecidableEq

/-- LintWarningType of schemas.py. -/
inductive LintWarningType
  | long_line
  | unused_variable
  | complex_expression
  | suspicious_syntax
deriving DecidableEq

/-- LintResponseFormat of schemas.py. -/
inductive LintResponseFormat
  | pdf
  | json
deriving DecidableEq

/-- LintOptions of schemas.py with its field defaults. -/
structure LintOptions where
  verbose : Bool := false
  check_undefined_vars : Bool := true
  max_line_length : Nat := 200
  fail_on_warnings : Bool := false
  check_tag_matching : Bool := true
  check_nested_structure : Bool := true
  response_format : LintResponseFormat := LintResponseFormat.pdf
deriving DecidableEq

/-- LintError of schemas.py. -/
structure LintError where
  line_number : Option Nat := none
  column : Option Nat := none
  error_type : LintErrorType
  message : String
  context : Option String := none
  tag_name : Option String := none
  suggestion : Option String := none
deriving DecidableEq

/-- LintWarning of schemas.py. -/
structure LintWarning where
  line_number : Option Nat := none
  column : Option Nat := none
  warning_type : LintWarningType
  message : String
  context : Option String := none
  suggestion : Option String := none
deriving DecidableEq

/-- LintSummary of schemas.py.  The two float fields are represented by
integers: every value the service writes into them is integral. -/
structure LintSummary where
  total_errors : Nat
  total_warnings : Nat
  template_size : Nat
  lines_count : Nat
  jinja_tags_count : Nat := 0
  completeness_score : Option Int := none
  processing_time_ms : Option Int := none
deriving DecidableEq

/-- LintResult of schemas.py. -/
structure LintResult where
  success : Bool
  errors : List LintError := []
  warnings : List LintWarning := []
  summary : LintSummary
  template_content : Option String := none
  template_preview : Option String := none
deriving DecidableEq

/-! ### _find_unmatched_tags -/

/-- Outcome of the jinja2 parse of the preprocessed template text, an
oracle input for the external library call env.from_string: success, a
TemplateSyntaxError with its line number and message, or any other
exception with its message. -/
inductive ParseOutcome
  | ok
  | syntaxError (lineno : Option Nat) (message : String)
  | otherError (message : String)
deriving DecidableEq

/-- One syntax-error dictionary as built by _find_unmatched_tags. -/
structure SyntaxErrorDict where
  kind : String
  line_number : Nat
  line_content : String
  message : String
  suggestion : String
deriving DecidableEq

/-- The source takes the error line as the reported line number when that
is truthy and 1 otherwise; in Python a line number of zero is falsy. -/
def linenoOrOne : Option Nat → Nat
  | none => 1
  | some n => if n = 0 then 1 else n

/-- The fixed suggestion attached to every template syntax error. -/
def syntaxSuggestion : String :=
  "Check for unmatched tags, missing endif/endfor statements, or invalid Jinja2 syntax"

/-- _find_unmatched_tags: run the jinja2 parse; on a TemplateSyntaxError
either rescan the document with the open-tag stack (when the reported
line exceeds the document or the message announces an unexpected end of
template) and report the last unmatched frame, or report the reported
line itself; on any other exception report a parsing error unless the
message mentions an unknown tag.  The result is the list of error
dictionaries, empty when the parse succeeds. -/
def findUnmatchedTags (structured_text : String) (parse : ParseOutcome) : List SyntaxErrorDict :=
  let lines := splitNl structured_text.data
  match parse with
  | ParseOutcome.ok => []
  | ParseOutcome.syntaxError lineno msg =>
    let errorLine := linenoOrOne lineno
    if errorLine > lines.length || strHas msg "Unexpected end of template" then
      match (scanStack lines).getLast? with
      | some f =>
        [{ kind := "template_syntax_error", line_number := f.line_number,
           line_content := pyStrip f.content,
           message := "Template syntax error: " ++ msg,
           suggestion := syntaxSuggestion }]
      | none =>
        [{ kind := "template_syntax_error", line_number := errorLine,
           line_content := pyStrip "End of template - missing closing tag",
           message := "Template syntax error: " ++ msg,
           suggestion := syntaxSuggestion }]
    else
      let content :=
        if errorLine ≤ lines.length then String.mk (lines.getD (errorLine - 1) []) else "Unknown"
      [{ kind := "template_syntax_error", line_number := errorLine,
         line_content := pyStrip content,
         message := "Template syntax error: " ++ msg,
         suggestion := syntaxSuggestion }]
  | ParseOutcome.otherError msg =>
    if strHas (pyLower msg) "unknown tag" then []
    else
      [{ kind := "parsing_error", line_number := 1, line_content := "Full template",
         message := "Template parsing error: " ++ msg,
         suggestion := "Check template syntax and structure" }]

/-! ### The jinja tag counter of _convert_json_to_lint_result

The summary counts matches of the pattern: open brace, one of percent,
open brace or hash, a lazy run of non-newline characters, one of percent,
close brace or hash, and a close brace.  The lazy run makes the scan
deterministic: from a candidate start the matcher looks for the first
close pair reachable without crossing a newline.  The recursion is
bounded by an explicit fuel equal to the text length, which the scan can
never exhaust since every step consumes at least one character. -/

/-- Find the first close pair (a class character followed by a close
brace) reachable without crossing a newline; return the remainder after
the match. -/
def lazyClose : Nat → List Char → Option (List Char)
  | 0, _ => none
  | _ + 1, [] => none
  | fuel + 1, c :: cs =>
    match cs with
    | '\x7d' :: rest =>
      if c = '%' || c = '\x7d' || c = '#' then some rest
      else if c = '\n' then none
      else lazyClose fuel ('\x7d' :: rest)
    | _ => if c = '\n' then none else lazyClose fuel cs

/-- Count non-overlapping tag matches scanning left to right. -/
def tagScan : Nat → List Char → Nat
  | 0, _ => 0
  | _ + 1, [] => 0
  | fuel + 1, c :: cs =>
    match c, cs with
    | '\x7b', c1 :: rest =>
      if c1 = '%' || c1 = '\x7b' || c1 = '#' then
        match lazyClose rest.length rest with
        | some rest2 => 1 + tagScan fuel rest2
        | none => tagScan fuel (c1 :: rest)
      else tagScan fuel (c1 :: rest)
    | _, _ => tagScan fuel cs

/-- Number of jinja tags re.findall reports in the structured text. -/
def countJinjaTags (s : String) : Nat := tagScan (s.data.length + 1) s.data

/-! ### _find_variable_line_number and the undefined-variable warnings -/

/-- After the variable name: an optional filter group (whitespace, a pipe
and a run of non-close-brace characters) and then whitespace and the
double close brace. -/
def varCloseOk (r : List Char) : Bool :=
  charsStartWith (chrs "\x7d\x7d") (r.dropWhile pySpace) ||
  (match r.dropWhile pySpace with
   | '|' :: r2 => charsStartWith (chrs "\x7d\x7d") (r2.dropWhile (fun c => !(c = '\x7d')))
   | _ => false)

/-- Match the variable-usage pattern at the head of the list: double open
brace, whitespace, the variable name, then the closing part. -/
def varAt (v : List Char) (cs : List Char) : Bool :=
  match cs with
  | '\x7b' :: '\x7b' :: rest =>
    (match dropLit v (rest.dropWhile pySpace) with
     | some r => varCloseOk r
     | none => false)
  | _ => false

/-- Python re.search of the variable-usage pattern anywhere in a line. -/
def varIn (v : List Char) : List Char → Bool
  | [] => false
  | c :: cs => varAt v (c :: cs) || varIn v cs

/-- Walk the lines with one-based numbers and report the first line where
the variable is used. -/
def findVariableLineAux (v : List Char) (ln : Nat) : List (List Char) → Option Nat
  | [] => none
  | l :: ls => if varIn v l then some ln else findVariableLineAux v (ln + 1) ls

/-- _find_variable_line_number. -/
def findVariableLineNumber (varName : String) (structured_text : String) : Option Nat :=
  findVariableLineAux varName.data 1 (splitNl structured_text.data)

/-- The warning lint_docx_file builds for one undeclared variable. -/
def mkUndefinedVarWarning (v : String) (structured_text : String) : LintWarning :=
  { warning_type := LintWarningType.unused_variable,
    message := "Undefined variable: " ++ v,
    line_number := findVariableLineNumber v structured_text,
    suggestion := some ("Ensure \x27" ++ v ++ "\x27 is provided in template data") }

/-! ### Result assembly -/

/-- _convert_to_lint_error: every syntax-error dictionary becomes a
LintError of type syntax error. -/
def convertToLintError (d : SyntaxErrorDict) : LintError :=
  { line_number := some d.line_number,
    error_type := LintErrorType.syntax_error,
    message := d.message,
    context := some d.line_content,
    suggestion := some d.suggestion }

/-- Python string slicing to a character count. -/
def pyTake (n : Nat) (s : String) : String := String.mk (s.data.take n)

/-- _convert_json_to_lint_result: build the summary from the error and
warning lists and the structured text, the preview from the first 500
characters, and the success flag from the error count and the
fail-on-warnings option. -/
def convertJsonToLintResult (procMs : Int) (errors : List LintError)
    (warnings : List LintWarning) (structured_text : String)
    (options : LintOptions) : LintResult :=
  let lines := splitNl structured_text.data
  let summary : LintSummary :=
    { total_errors := errors.length,
      total_warnings := warnings.length,
      template_size := structured_text.data.length,
      lines_count := lines.length,
      jinja_tags_count := countJinjaTags structured_text,
      completeness_score :=
        some (if errors.length = 0 then 100 else max 0 (100 - (errors.length : Int) * 20)),
      processing_time_ms := some procMs }
  let preview :=
    if structured_text.data.length > 500 then pyTake 500 structured_text ++ "..."
    else structured_text
  { success := decide (errors.length = 0) && (!options.fail_on_warnings || decide (warnings.length = 0)),
    errors := errors,
    warnings := warnings,
    summary := summary,
    template_content := if options.verbose then some structured_text else none,
    template_preview := some preview }

/-- _create_error_result: the single-error result returned when the
pipeline catches an exception. -/
def createErrorResult (excMessage : String) (procMs : Int) : LintResult :=
  { success := false,
    errors := [{ error_type := LintErrorType.document_error,
                 message := "Linting failed: " ++ excMessage,
                 suggestion := some "Check document format and try again" }],
    warnings := [],
    summary := { total_errors := 1, total_warnings := 0, template_size := 0,
                 lines_count := 0, jinja_tags_count := 0,
                 completeness_score := some 0, processing_time_ms := some procMs },
    template_content := none,
    template_preview := some "Error: Could not process document" }

/-! ### The pipeline -/

/-- Outcome of the docxtpl stages, an oracle input: either the XML
extraction succeeds and docxtpl reports a set of undeclared template
variables, or the extraction raises and the pipeline falls into its
exception handler.  The message is the one wrapped into the
DocumentExtractionException by _extract_xml_with_docxtpl. -/
inductive DocxtplOutcome
  | ok (undeclaredVars : List String)
  | fail (message : String)
deriving DecidableEq

/-- Whether the docxtpl extraction failed. -/
def DocxtplOutcome.failed : DocxtplOutcome → Bool
  | DocxtplOutcome.ok _ => false
  | DocxtplOutcome.fail _ => true

/-- The external world of one lint invocation: the filename, the
structured text python-docx extraction produced (the extractor returns
the empty string when it fails, it never raises), the jinja2 parse
outcome, the docxtpl outcome, and the measured processing time. -/
structure WorldInput where
  filename : String
  structuredText : String
  parse : ParseOutcome
  docxtpl : DocxtplOutcome
  procMs : Int
deriving DecidableEq

/-- DocxJinjaLinterService.lint_docx_file.  When _find_unmatched_tags
reports errors the pipeline converts them and returns early with no
warnings; otherwise it runs the docxtpl stages, whose failure is caught
by the surrounding handler and turned into the single-error result, and
on success collects one undefined-variable warning per undeclared
variable when that check is enabled.  The function is total: every input
yields a LintResult, the exception path included. -/
def lint_docx_file (w : WorldInput) (options : LintOptions) : LintResult :=
  let syntax_errors := findUnmatchedTags w.structuredText w.parse
  if syntax_errors.isEmpty then
    match w.docxtpl with
    | DocxtplOutcome.fail msg =>
      createErrorResult
        ("Failed to extract XML from " ++ w.filename ++ " using docxtpl: " ++ msg) w.procMs
    | DocxtplOutcome.ok vars =>
      let warnings :=
        if options.check_undefined_vars then
          vars.map (fun v => mkUndefinedVarWarning v w.structuredText)
        else []
      convertJsonToLintResult w.procMs [] warnings w.structuredText options
  else
    convertJsonToLintResult w.procMs (syntax_errors.map convertToLintError) []
      w.structuredText options

/-! ### The completeness score the specification describes -/

/-- Modelled from the spec: the score formula of section 4.6, clamp of
100 minus 15 per error minus 5 per warning plus at most 10 for tag
density, returning 0 unconditionally on blank input.  This definition
follows the specification words, for comparison against the score the
code computes; it is not translated from the source. -/
def spec_completeness_score (total_errors total_warnings tag_count : Nat)
    (blank : Bool) : Int :=
  if blank then 0
  else
    min 100 (max 0
      (100 - 15 * (total_errors : Int) - 5 * (total_warnings : Int) +
        min 10 (2 * (tag_count : Int))))

/-- Blankness of the extracted text: empty or whitespace only. -/
def isBlankText (s : String) : Bool := stripChars s.data = []

/-- The error types any code path of the pipeline can emit. -/
def reportableErrorType : LintErrorType → Bool
  | LintErrorType.syntax_error => true
  | LintErrorType.document_error => true
  | _ => false

/-! ### Concrete inputs used by the counterexamples and witnesses -/

/-- Blank document, clean parse, successful docxtpl stage. -/
def wBlank : WorldInput :=
  { filename := "blank.docx", structuredText := "", parse := ParseOutcome.ok,
    docxtpl := DocxtplOutcome.ok [], procMs := 0 }

/-- Two nested conditional opens and no closes: jinja2 reports an
unexpected end of template, as its real message does on this text. -/
def wNested : WorldInput :=
  { filename := "nested.docx",
    structuredText := "\x7b% if a %\x7d\n\x7b% if b %\x7d",
    parse := ParseOutcome.syntaxError none
      "Unexpected end of template. Jinja was looking for the following tags: \x27elif\x27 or \x27else\x27 or \x27endif\x27. The innermost block that needs to be closed is \x27if\x27.",
    docxtpl := DocxtplOutcome.ok [], procMs := 0 }

/-- A conditional closed by a loop end then by its own end: jinja2
reports an unknown tag at line one, as its real message does. -/
def wMismatch : WorldInput :=
  { filename := "mismatch.docx",
    structuredText := "\x7b% if a %\x7d\x7b% endfor %\x7d\x7b% endif %\x7d",
    parse := ParseOutcome.syntaxError (some 1)
      "Encountered unknown tag \x27endfor\x27. You probably made a nesting mistake. Jinja is expecting this tag, but currently looking for \x27elif\x27 or \x27else\x27 or \x27endif\x27. The innermost block that needs to be closed is \x27if\x27.",
    docxtpl := DocxtplOutcome.ok [], procMs := 0 }

/-- Eleven nested conditional opens, one per line, and no closes. -/
def wDeep : WorldInput :=
  { filename := "deep.docx",
    structuredText := String.intercalate "\n" (List.replicate 11 "\x7b% if c %\x7d"),
    parse := ParseOutcome.syntaxError none
      "Unexpected end of template. Jinja was looking for the following tags: \x27elif\x27 or \x27else\x27 or \x27endif\x27. The innermost block that needs to be closed is \x27if\x27.",
    docxtpl := DocxtplOutcome.ok [], procMs := 0 }

/-- One plain line of two hundred characters, clean parse, no
undeclared variables. -/
def wLongLine : WorldInput :=
  { filename := "long.docx", structuredText := String.mk (List.replicate 200 'a'),
    parse := ParseOutcome.ok, docxtpl := DocxtplOutcome.ok [], procMs := 0 }

/-- The options of the long-line scenario. -/
def optLongLine : LintOptions := { max_line_length := 50 }

/-- A run whose jinja2 parse raises a non-syntax exception. -/
def wParseBoom : WorldInput :=
  { filename := "odd.docx", structuredText := "plain text",
    parse := ParseOutcome.otherError "boom",
    docxtpl := DocxtplOutcome.ok [], procMs := 0 }

/-- A clean parse whose docxtpl extraction fails. -/
def wDocxtplFail : WorldInput :=
  { filename := "f.docx", structuredText := "hello", parse := ParseOutcome.ok,
    docxtpl := DocxtplOutcome.fail "zip broken", procMs := 5 }

/-! ### Helper lemmas -/

/-- _find_unmatched_tags returns at most one error dictionary: every
branch of the source appends at most one entry before returning. -/
theorem findUnmatchedTags_length_le_one (t : String) (p : ParseOutcome) :
    (findUnmatchedTags t p).length ≤ 1 := by
  unfold findUnmatchedTags
  cases p with
  | ok => simp
  | syntaxError lineno msg =>
    dsimp only
    split
    · cases (scanStack (splitNl t.data)).getLast? <;> simp
    · simp
  | otherError msg =>
    dsimp only
    split <;> simp

/-! ### Claim theorems -/

/-- C5: in every LintResult the linter returns -- clean run,
early-termination run with syntax errors, and catastrophic-failure run
alike -- the summary field total errors equals the length of the errors
list and the summary field total warnings equals the length of the
warnings list. -/
theorem summary_counts_are_list_lengths (w : WorldInput) (o : LintOptions) :
    (lint_docx_file w o).summary.total_errors = (lint_docx_file w o).errors.length ∧
    (lint_docx_file w o).summary.total_warnings = (lint_docx_file w o).warnings.length := by
  by_cases he : (findUnmatchedTags w.structuredText w.parse).isEmpty
  · cases hd : w.docxtpl with
    | ok vars => simp [lint_docx_file, he, hd, convertJsonToLintResult]
    | fail msg => simp [lint_docx_file, he, hd, createErrorResult]
  · simp [lint_docx_file, he, convertJsonToLintResult]

/-- C8: for every input the errors list of the returned result contains
at most one element -- the syntax-check stage stops at the first parse
failure and the catastrophic path builds exactly one document error. -/
theorem errors_at_most_one (w : WorldInput) (o : LintOptions) :
    (lint_docx_file w o).errors.length ≤ 1 := by
  have h := findUnmatchedTags_length_le_one w.structuredText w.parse
  by_cases he : (findUnmatchedTags w.structuredText w.parse).isEmpty
  · cases hd : w.docxtpl with
    | ok vars => simp [lint_docx_file, he, hd, convertJsonToLintResult]
    | fail msg => simp [lint_docx_file, he, hd, createErrorResult]
  · simpa [lint_docx_file, he, convertJsonToLintResult] using h

/-- C10: every error in every returned result has type syntax error or
document error; the unclosed-tag, mismatched-tag, nested-error,
undefined-variable and invalid-expression kinds are never emitted. -/
theorem errors_only_syntax_or_document (w : WorldInput) (o : LintOptions) :
    (lint_docx_file w o).errors.all (fun e => reportableErrorType e.error_type) = true := by
  by_cases he : (findUnmatchedTags w.structuredText w.parse).isEmpty
  · cases hd : w.docxtpl with
    | ok vars => simp [lint_docx_file, he, hd, convertJsonToLintResult]
    | fail msg =>
      simp [lint_docx_file, he, hd, createErrorResult, reportableErrorType]
  · simp only [lint_docx_file, he, convertJsonToLintResult, if_neg, Bool.not_eq_true,
      List.all_eq_true]
    intro e hmem
    rcases List.mem_map.mp hmem with ⟨d, _, rfl⟩
    rfl

/-- C9: whenever the returned errors list is non-empty the warnings list
is empty -- the undefined-variable stage runs only after a clean syntax
check, and both the early-termination path and the failure path return
zero warnings. -/
theorem errors_imply_no_warnings (w : WorldInput) (o : LintOptions)
    (h : (lint_docx_file w o).errors ≠ []) :
    (lint_docx_file w o).warnings = [] := by
  by_cases he : (findUnmatchedTags w.structuredText w.parse).isEmpty
  · cases hd : w.docxtpl with
    | ok vars =>
      exact absurd (by simp [lint_docx_file, he, hd, convertJsonToLintResult]) h
    | fail msg => simp [lint_docx_file, he, hd, createErrorResult]
  · simp [lint_docx_file, he, convertJsonToLintResult]

/-- C9 witness: a run whose parse raises a generic exception has a
non-empty errors list, and the theorem yields its empty warnings list. -/
theorem errors_imply_no_warnings_witness :
    (lint_docx_file wParseBoom {}).warnings = [] :=
  errors_imply_no_warnings wParseBoom {} (by decide)

/-- C4: the pipeline is a total function into LintResult -- the
exception handler of the source is the failure branch of the embedding
-- and whenever the docxtpl stage raises on a syntactically clean
document the returned result carries exactly one document error, success
false, and the zeroed default summary. -/
theorem extraction_failure_single_document_error (w : WorldInput) (o : LintOptions)
    (msg : String)
    (hclean : findUnmatchedTags w.structuredText w.parse = [])
    (hfail : w.docxtpl = DocxtplOutcome.fail msg) :
    (lint_docx_file w o).success = false ∧
    (lint_docx_file w o).errors.map (fun e => e.error_type) = [LintErrorType.document_error] ∧
    (lint_docx_file w o).errors.length = 1 ∧
    (lint_docx_file w o).warnings = [] ∧
    (lint_docx_file w o).summary =
      { total_errors := 1, total_warnings := 0, template_size := 0, lines_count := 0,
        jinja_tags_count := 0, completeness_score := some 0,
        processing_time_ms := some w.procMs } := by
  simp [lint_docx_file, hclean, hfail, createErrorResult]

/-- C4 witness: a concrete run with a clean parse and a failing docxtpl
extraction. -/
theorem extraction_failure_single_document_error_witness :
    (lint_docx_file wDocxtplFail {}).success = false ∧
    (lint_docx_file wDocxtplFail {}).errors.map (fun e => e.error_type) =
      [LintErrorType.document_error] ∧
    (lint_docx_file wDocxtplFail {}).errors.length = 1 ∧
    (lint_docx_file wDocxtplFail {}).warnings = [] ∧
    (lint_docx_file wDocxtplFail {}).summary =
      { total_errors := 1, total_warnings := 0, template_size := 0, lines_count := 0,
        jinja_tags_count := 0, completeness_score := some 0,
        processing_time_ms := some (5 : Int) } :=
  extraction_failure_single_document_error wDocxtplFail {} "zip broken" (by rfl) (by rfl)

/-- C1 counterexample: on blank extracted text with a clean parse the
code returns completeness score 100, while the claim demands exactly 0
for blank input, as the spec-modelled score with the blank flag set
computes. -/
theorem completeness_blank_counterexample :
    isBlankText wBlank.structuredText = true ∧
    (lint_docx_file wBlank {}).summary.completeness_score = some 100 ∧
    spec_completeness_score 0 0 0 true = 0 := by decide

/-- C1 amended: the completeness score the code computes is 100 when the
errors list is empty, the clamp below by zero of 100 minus 20 per error
otherwise, and 0 on the catastrophic-failure path; warnings, tag count
and blankness of the text play no role. -/
theorem completeness_score_of_code (w : WorldInput) (o : LintOptions) :
    (lint_docx_file w o).summary.completeness_score =
      some
        (if (findUnmatchedTags w.structuredText w.parse).isEmpty && w.docxtpl.failed then 0
         else if (lint_docx_file w o).errors.length = 0 then 100
         else max 0 (100 - ((lint_docx_file w o).errors.length : Int) * 20)) := by
  by_cases he : (findUnmatchedTags w.structuredText w.parse).isEmpty
  · cases hd : w.docxtpl with
    | ok vars =>
      simp [lint_docx_file, he, hd, convertJsonToLintResult, DocxtplOutcome.failed]
    | fail msg =>
      simp [lint_docx_file, he, hd, createErrorResult, DocxtplOutcome.failed]
  · have hne : findUnmatchedTags w.structuredText w.parse ≠ [] := by
      intro hnil
      exact he (by simp [hnil])
    have hlen : (findUnmatchedTags w.structuredText w.parse).length ≠ 0 := by
      simpa [List.length_eq_zero] using hne
    simp [lint_docx_file, he, convertJsonToLintResult, hlen]

/-- C2: on a chain of two nested paired opens with zero closing tags the
code returns exactly one error of kind syntax error located at the
innermost opening line with its content, not two unclosed-tag errors
reported outermost-first as the claim states. -/
theorem nested_opens_one_innermost_syntax_error :
    (lint_docx_file wNested {}).errors.map
        (fun e => (e.error_type, e.line_number, e.context)) =
      [(LintErrorType.syntax_error, some 2, some "\x7b% if b %\x7d")] := by decide

/-- C3: on a conditional closed first by a loop end and then by its own
end the code returns exactly one error of kind syntax error from the
jinja2 parse failure, and never a mismatched-tag error. -/
theorem mismatched_close_one_syntax_error :
    (lint_docx_file wMismatch {}).errors.map (fun e => (e.error_type, e.line_number)) =
      [(LintErrorType.syntax_error, some 1)] := by decide

/-- C6: on eleven nested conditional opens with no closes the code
returns exactly one error of kind syntax error at the innermost line,
and no nested-structure error at all: no code path emits one. -/
theorem deep_nesting_no_nested_error :
    (lint_docx_file wDeep {}).errors.map (fun e => (e.error_type, e.line_number)) =
      [(LintErrorType.syntax_error, some 11)] := by decide

set_option maxRecDepth 4000 in
/-- C7: on a two-hundred-character line with a maximum line length of
fifty the code returns no warning at all -- the configured maximum is
never consulted and no code path emits a long-line warning. -/
theorem long_line_no_warning :
    optLongLine.max_line_length = 50 ∧
    wLongLine.structuredText.length = 200 ∧
    (lint_docx_file wLongLine optLongLine).warnings = [] := by decide

end DocxLint
